import Mathlib

/-!
Verification of the OilPriceAPI WebSocket tester (`src/python/tester.py`).

This file is a shallow embedding of the tester's pure state-transition
logic: JSON payload values as produced by `json.loads`, the price /
drilling / well-permit merge functions (`update_prices` and its helpers
`extract_price_value`, `extract_change_percent`), the inbound-frame
dispatch (`on_message`), and the close / reconnect policy (`on_close`,
`handle_reconnect`).  Wall-clock timestamps are threaded as explicit
`now` parameters; terminal rendering, argument parsing and log-file
export are out of scope (they only consume state).
-/

namespace Tester

/-- JSON-like payload values as delivered by `json.loads`.
`nan` stands for a float NaN (`float("nan")` is a valid JSON extension
value and `isinstance(·, float)` holds for it).  Python booleans are
instances of `int`, which the numeric `isinstance` checks accept.
Arrays are omitted: the tester never indexes one, and a `.get` on a
non-dict raises `AttributeError` in the source (never exercised by the
protocol's object-shaped payloads); both are modelled as an absent key. -/
inductive JVal where
  | null
  | bool (b : Bool)
  | num (q : ℚ)
  | nan
  | str (s : String)
  | obj (fields : List (String × JVal))

/-- Python truthiness of a payload value (`if v:`).  Note `float("nan")`
is truthy in Python. -/
def truthy : JVal → Bool
  | .null => false
  | .bool b => b
  | .num q => decide (q ≠ 0)
  | .nan => true
  | .str s => decide (s ≠ "")
  | .obj fields => !fields.isEmpty

/-- `o.get(k)` on a dict: the stored value, or absent.  A non-dict
receiver is modelled as having no keys (the source would raise). -/
def pyGet : JVal → String → Option JVal
  | .obj fields, k => fields.lookup k
  | _, _ => none

/-- `o.get(k)` where the caller treats an explicit JSON `null` value the
same as a missing key (both surface as Python `None`). -/
def pyGetN (o : JVal) (k : String) : Option JVal :=
  match pyGet o k with
  | some .null => none
  | x => x

/-- `o.items()` of a dict, in encounter (insertion) order. -/
def pyItems : JVal → List (String × JVal)
  | .obj fields => fields
  | _ => []

/-- Truthiness of a `.get` result (`if o.get(k):` — absent is falsy). -/
def truthyOpt : Option JVal → Bool
  | some v => truthy v
  | none => false

/-- `v == "s"` for a `.get` result: only a string compares equal. -/
def isStr (v : Option JVal) (s : String) : Bool :=
  match v with
  | some (.str t) => t == s
  | _ => false

/-- `"k" in o` for a dict. -/
def hasKey (o : JVal) (k : String) : Bool :=
  (pyGet o k).isSome

/-- A Python numeric value as stored in the tester's state: a finite
rational (covering int, float and bool, since `True == 1`), or NaN. -/
inductive PyNum where
  | fin (q : ℚ)
  | nan
deriving DecidableEq

/-- The value of `v` when `isinstance(v, (int, float))` holds (Python
booleans pass this check and behave as `1` / `0`). -/
def asNum : JVal → Option PyNum
  | .num q => some (.fin q)
  | .nan => some .nan
  | .bool b => some (.fin (if b then 1 else 0))
  | _ => none

/-- `cents / 100`.  A non-numeric `cents` raises `TypeError` in the
source (aborting the surrounding update); modelled as no value. -/
def centsDiv : JVal → Option PyNum
  | .num q => some (.fin (q / 100))
  | .nan => some .nan
  | .bool b => some (.fin ((if b then (1 : ℚ) else 0) / 100))
  | _ => none

/-- The `normalized_price` fallback of `extract_price_value`
(source lines 149–157): a direct number, else a Money object's
`cents / 100`, else no value. -/
def normFallback (price : JVal) : Option PyNum :=
  match pyGet price "normalized_price" with
  | some (.num q) => some (.fin q)
  | some .nan => some .nan
  | some (.bool b) => some (.fin (if b then 1 else 0))
  | some (.obj fields) =>
      match pyGet (.obj fields) "cents" with
      | some .null => none
      | some c => centsDiv c
      | none => none
  | _ => none

/-- `extract_price_value(price)` (source lines 133–157): prefer a
directly numeric `original_price`, then a Money-object
`original_price.cents / 100`; fall back to `normalized_price` under the
same two representations; otherwise no value.  A falsy `price` yields
no value (`if not price: return None`). -/
def extract_price_value (price : JVal) : Option PyNum :=
  if truthy price then
    match pyGet price "original_price" with
    | some (.num q) => some (.fin q)
    | some .nan => some .nan
    | some (.bool b) => some (.fin (if b then 1 else 0))
    | some (.obj fields) =>
        match pyGet (.obj fields) "cents" with
        | some .null => normFallback price
        | some c => centsDiv c
        | none => normFallback price
    | _ => normFallback price
  else none

/-- `extract_change_percent(price)` (source lines 160–167):
`change = price.get("change_24h_percent") or price.get("change_percent")`
— Python `or`, so a falsy primary value (0, but also NaN is truthy and
is kept) falls through to the legacy alias — then accept only if
`isinstance(change, (int, float)) and change == change` (the NaN
self-equality test). -/
def extract_change_percent (price : JVal) : Option PyNum :=
  if truthy price then
    let change :=
      match pyGet price "change_24h_percent" with
      | some v => if truthy v then some v else pyGet price "change_percent"
      | none => pyGet price "change_percent"
    match change with
    | some (.num q) => some (.fin q)
    | some (.bool b) => some (.fin (if b then 1 else 0))
    | _ => none
  else none

/-- One tracked instrument's quote (one entry of the module-level
`prices` dict): `{"value": ..., "change": ..., "updated": ...}`. -/
structure PriceQuote where
  value : Option PyNum
  change : Option PyNum
  updated : Option String
deriving DecidableEq

/-- The four tracked instruments of the `prices` dict. -/
structure Prices where
  brent : PriceQuote
  wti : PriceQuote
  natgas_us : PriceQuote
  natgas_uk : PriceQuote
deriving DecidableEq

/-- The nine drilling-intelligence metric values (the `drilling` dict).
The `label` fields are constant string literals the code never rewrites,
so only the mutable `value` slots are modelled. -/
structure Drilling where
  rig_us : Option JVal
  rig_canada : Option JVal
  rig_intl : Option JVal
  frac_permian : Option JVal
  frac_eagle_ford : Option JVal
  frac_bakken : Option JVal
  duc_permian : Option JVal
  duc_eagle_ford : Option JVal
  duc_bakken : Option JVal

/-- `well_permits["summary"]`. -/
structure WPSummary where
  total_7d : Option JVal
  total_30d : Option JVal
  active_states : Option JVal

/-- The `well_permits` dict: summary block, the recomputed top-states
list (state name with its 7-day count used as the sort key), and the
last-updated stamp. -/
structure WellPermits where
  summary : WPSummary
  top_states : List (String × ℚ)
  last_updated : Option JVal

/-- The whole Market State Store: the module-level `prices`, `drilling`
and `well_permits` dicts. -/
structure Store where
  prices : Prices
  drilling : Drilling
  well_permits : WellPermits

/-- The initial store: every value absent, no top states. -/
def initStore : Store :=
  { prices := ⟨⟨none, none, none⟩, ⟨none, none, none⟩,
               ⟨none, none, none⟩, ⟨none, none, none⟩⟩
  , drilling := ⟨none, none, none, none, none, none, none, none, none⟩
  , well_permits := ⟨⟨none, none, none⟩, [], none⟩ }

/-- `price_data.get(grp, {}).get(key)` followed by the truthiness test
that gates each instrument's update (`if price_data.get("oil", {}).get("brent"):`). -/
def instrSub (price_data : JVal) (grp key : String) : Option JVal :=
  match pyGet ((pyGet price_data grp).getD (.obj [])) key with
  | some v => if truthy v then some v else none
  | none => none

/-- One instrument's merge step (source lines 174–181 and its three
clones): when the gated sub-structure is present and a value is
resolvable, the whole quote dict is rebuilt (value, change and updated
stamp); otherwise the stored quote is untouched. -/
def updQuote (sub : Option JVal) (now : String) (old : PriceQuote) : PriceQuote :=
  match sub with
  | some p =>
      match extract_price_value p with
      | some v => { value := some v, change := extract_change_percent p, updated := some now }
      | none => old
  | none => old

/-- `grp.get(k, {}).get("value")` with the `is not None` test of the
drilling sections: the incoming value, absent when the sub-dict or its
`value` is missing or null. -/
def metricVal (grp : JVal) (k : String) : Option JVal :=
  match pyGet ((pyGet grp k).getD (.obj [])) "value" with
  | some .null => none
  | some v => some v
  | none => none

/-- Overwrite a drilling metric's value only when an incoming value is
present (`if ... is not None: drilling[k]["value"] = ...`). -/
def updMetric (incoming : Option JVal) (old : Option JVal) : Option JVal :=
  match incoming with
  | some v => some v
  | none => old

/-- The gated incoming value for one metric of one drilling group:
absent unless the group sub-dict is present and truthy
(`if di.get("rig_counts"): ...`). -/
def groupVal (di : JVal) (grp k : String) : Option JVal :=
  match pyGet di grp with
  | some g => if truthy g then metricVal g k else none
  | none => none

/-- The drilling-intelligence section of `update_prices` (source lines
207–238), applied under the `if di:` guard.  The three group guards are
pushed into `groupVal`; per metric the effect is identical to the
source's sequential writes. -/
def updDrilling (di : JVal) (d : Drilling) : Drilling :=
  if truthy di then
    { rig_us := updMetric (groupVal di "rig_counts" "us_rigs") d.rig_us
    , rig_canada := updMetric (groupVal di "rig_counts" "canada_rigs") d.rig_canada
    , rig_intl := updMetric (groupVal di "rig_counts" "international_rigs") d.rig_intl
    , frac_permian := updMetric (groupVal di "frac_spreads" "permian") d.frac_permian
    , frac_eagle_ford := updMetric (groupVal di "frac_spreads" "eagle_ford") d.frac_eagle_ford
    , frac_bakken := updMetric (groupVal di "frac_spreads" "bakken") d.frac_bakken
    , duc_permian := updMetric (groupVal di "duc_wells" "permian") d.duc_permian
    , duc_eagle_ford := updMetric (groupVal di "duc_wells" "eagle_ford") d.duc_eagle_ford
    , duc_bakken := updMetric (groupVal di "duc_wells" "bakken") d.duc_bakken }
  else d

/-- The numeric sort key of one `by_state` entry:
`(data.get("count_7d", 0) if data else 0)`.  A non-numeric stored count
would raise `TypeError` inside the source's sort (never produced by the
protocol); modelled as the default 0. -/
def count7d (d : JVal) : ℚ :=
  if truthy d then
    match (pyGet d "count_7d").getD (.num 0) with
    | .num q => q
    | .bool b => if b then 1 else 0
    | _ => 0
  else 0

/-- Insert an entry into a descending-sorted list, after every entry
whose key is at least as large: the insertion step of a stable
descending sort. -/
def insertDesc (x : String × ℚ) : List (String × ℚ) → List (String × ℚ)
  | [] => [x]
  | y :: ys => if y.2 < x.2 then x :: y :: ys else y :: insertDesc x ys

/-- `states.sort(key=lambda x: x[1], reverse=True)`: Python's sort is
stable, and `reverse=True` keeps it stable (entries with equal keys keep
encounter order) while ordering keys descending.  A stable sort's output
is determined by that contract alone, so it is realised here as a
structural stable insertion sort processing entries in encounter
order. -/
def sortDesc (l : List (String × ℚ)) : List (String × ℚ) :=
  l.foldl (fun acc x => insertDesc x acc) []

/-- The recomputed top-states list (source lines 249–253). -/
def topStatesOf (bs : JVal) : List (String × ℚ) :=
  sortDesc ((pyItems bs).map (fun p => (p.1, count7d p.2)))

/-- The well-permits section of `update_prices` (source lines 240–254),
applied under the `if di:` guard: replace the summary wholesale when a
truthy `summary` sub-block exists, replace the top-states list wholesale
when a truthy `by_state` sub-block exists, and stamp `last_updated`
from the payload or fall back to the receipt time. -/
def updWellPermits (di : JVal) (now : String) (w : WellPermits) : WellPermits :=
  if truthy di then
    match pyGet di "well_permits" with
    | some wp =>
        if truthy wp then
          { summary :=
              match pyGet wp "summary" with
              | some s =>
                  if truthy s then
                    ⟨pyGetN s "total_permits_7d", pyGetN s "total_permits_30d",
                     pyGetN s "active_states"⟩
                  else w.summary
              | none => w.summary
          , top_states :=
              match pyGet wp "by_state" with
              | some bs => if truthy bs then topStatesOf bs else w.top_states
              | none => w.top_states
          , last_updated := some ((pyGet wp "last_updated").getD (.str now)) }
        else w
    | none => w
  else w

/-- `price_data = data.get("prices", data)` (source line 171): the
price container is the `prices` sub-structure when present, else the
payload itself (supports both the welcome-data shape and the
streamed-update shape). -/
def priceContainer (data : JVal) : JVal :=
  (pyGet data "prices").getD data

/-- `update_prices(data)` (source lines 170–254): locate the price
container (`data.get("prices", data)`), merge each of the four
instruments, then apply the drilling-intelligence and well-permits
sections under the `if di:` guard (`di = data.get("drilling_intelligence", {})`). -/
def update_prices (st : Store) (data : JVal) (now : String) : Store :=
  let price_data := priceContainer data
  let di := (pyGet data "drilling_intelligence").getD (.obj [])
  { prices :=
      { brent := updQuote (instrSub price_data "oil" "brent") now st.prices.brent
      , wti := updQuote (instrSub price_data "oil" "wti") now st.prices.wti
      , natgas_us := updQuote (instrSub price_data "natural_gas" "us") now st.prices.natgas_us
      , natgas_uk := updQuote (instrSub price_data "natural_gas" "uk") now st.prices.natgas_uk }
  , drilling := updDrilling di st.drilling
  , well_permits := updWellPermits di now st.well_permits }

/-- Connection lifecycle status (the global `connection_status`). -/
inductive ConnStatus where
  | disconnected
  | connecting
  | connected
deriving DecidableEq

/-- One `add_log` entry, abstracted to its event kind (the formatted
message text and timestamp carry no further state). -/
inductive LogEvent where
  | pingMsg
  | welcome
  | initialPrices
  | subscribed
  | waiting
  | rejected
  | rejectedTier
  | priceUpdate
  | parseError
  | rawPreview
deriving DecidableEq

/-- One inbound text frame as seen by `on_message`: either not valid
JSON (`json.loads` raises `JSONDecodeError`), or parsed to a payload
value.  `len` is the frame's byte length (`len(message)`). -/
inductive Frame where
  | malformed (len : Nat)
  | parsed (len : Nat) (msg : JVal)

/-- The byte length of a frame. -/
def Frame.length : Frame → Nat
  | .malformed len => len
  | .parsed len _ => len

/-- A ping frame: parsed with `type == "ping"`. -/
def Frame.isPing : Frame → Bool
  | .parsed _ msg => isStr (pyGet msg "type") "ping"
  | .malformed _ => false

/-- The session-visible global state touched by `on_message`:
counters, the Market State Store, the connection status and the
append-only log.  (`last_ping_time` and its interval log line are
wall-clock bookkeeping, not modelled.) -/
structure TesterState where
  message_count : Nat
  bytes_received : Nat
  ping_count : Nat
  store : Store
  connection_status : ConnStatus
  logs : List LogEvent

/-- The state at process start. -/
def initTester : TesterState :=
  { message_count := 0, bytes_received := 0, ping_count := 0
  , store := initStore, connection_status := .disconnected, logs := [] }

/-- `msg.get(k) or {}` — the value when truthy, else an empty dict. -/
def getOrEmpty (o : JVal) (k : String) : JVal :=
  match pyGet o k with
  | some v => if truthy v then v else .obj []
  | none => .obj []

/-- Is the payload a dict? (`isinstance(·, dict)`) -/
def isObj : JVal → Bool
  | .obj _ => true
  | _ => false

/-- `on_message(ws, message)` (source lines 436–499).  Bytes are counted
before parsing; a malformed frame is logged and the handler returns; a
ping is counted and never reaches the message counter; every other
parsed frame increments `message_count` and is dispatched on its `type`
(welcome / subscription confirmed / subscription rejected) or on the
presence of a `message` field (a data update).  The `verbose` and
`pings` flags only add log lines.  A parsed frame that is not a dict
would raise in the source's `msg.get` (the server only sends objects);
here its key lookups are simply absent. -/
def on_message (verbose pings : Bool) (now : String)
    (st : TesterState) (f : Frame) : TesterState :=
  match f with
  | .malformed len =>
      let st := { st with bytes_received := st.bytes_received + len }
      let st := { st with logs := st.logs ++ [.parseError] }
      if verbose then { st with logs := st.logs ++ [.rawPreview] } else st
  | .parsed len msg =>
      let st := { st with bytes_received := st.bytes_received + len }
      if isStr (pyGet msg "type") "ping" then
        let st := { st with ping_count := st.ping_count + 1 }
        if pings then { st with logs := st.logs ++ [.pingMsg] } else st
      else
        let st := { st with message_count := st.message_count + 1 }
        if isStr (pyGet msg "type") "welcome" then
          let st := { st with logs := st.logs ++ [.welcome] }
          let wd := getOrEmpty msg "data"
          if isObj wd && truthyOpt (pyGet wd "prices") then
            { st with store := update_prices st.store wd now
                    , logs := st.logs ++ [.initialPrices] }
          else st
        else if isStr (pyGet msg "type") "confirm_subscription" then
          { st with logs := st.logs ++ [.subscribed, .waiting] }
        else if isStr (pyGet msg "type") "reject_subscription" then
          { st with logs := st.logs ++ [.rejected, .rejectedTier] }
        else if hasKey msg "message" then
          let m := (pyGet msg "message").getD .null
          let msg_data := getOrEmpty m "data"
          let st :=
            if truthyOpt (pyGet m "prices")
               || (isObj msg_data && truthyOpt (pyGet msg_data "prices")) then
              let arg := if truthyOpt (pyGet msg_data "prices") then msg_data else m
              { st with store := update_prices st.store arg now }
            else st
          { st with logs := st.logs ++ [.priceUpdate] }
        else st

/-- Configuration constants (source lines 24–25). -/
def MAX_RECONNECT_ATTEMPTS : Nat := 5

/-- Base reconnect delay in seconds (source line 25). -/
def RECONNECT_BASE_DELAY_SEC : Nat := 1

/-- The shutdown steps of the give-up branch of `handle_reconnect`, in
order: stop the display, export the log when `--export` was given, then
`sys.exit(1)`. -/
inductive ShutdownAction where
  | stopDisplay
  | exportLog
  | exitProcess (code : Nat)
deriving DecidableEq

/-- The give-up action sequence: final flush, then nonzero exit. -/
def giveUpActions (exp : Bool) : List ShutdownAction :=
  [.stopDisplay] ++ (if exp then [.exportLog] else []) ++ [.exitProcess 1]

/-- The outcome of one `handle_reconnect` call. -/
inductive ReconnectDecision where
  | giveUp (actions : List ShutdownAction)
  | retryAfter (delay : Nat) (newAttempts : Nat)
deriving DecidableEq

/-- `handle_reconnect()` (source lines 536–551) as a decision function
over the current `reconnect_attempts` counter: at or beyond the budget,
give up (flush, then exit nonzero); otherwise increment the counter
once and retry after `RECONNECT_BASE_DELAY_SEC * 2 ** (attempts - 1)`
seconds computed from the incremented counter. -/
def handle_reconnect (exp : Bool) (reconnect_attempts : Nat) : ReconnectDecision :=
  if MAX_RECONNECT_ATTEMPTS ≤ reconnect_attempts then
    .giveUp (giveUpActions exp)
  else
    let a := reconnect_attempts + 1
    .retryAfter (RECONNECT_BASE_DELAY_SEC * 2 ^ (a - 1)) a

/-- What `on_close` does with a close notification (source lines
522–533), beyond logging: end the session on a normal close
(code 1000), hand every other close — any other code, or an absent
code — to `handle_reconnect`. -/
inductive CloseOutcome where
  | sessionEnd
  | reconnect (d : ReconnectDecision)
deriving DecidableEq

/-- The close-code dispatch of `on_close`:
`if close_status_code != 1000: handle_reconnect()`. -/
def on_close_decision (exp : Bool) (code : Option Int) (attempts : Nat) : CloseOutcome :=
  if code = some 1000 then .sessionEnd
  else .reconnect (handle_reconnect exp attempts)

/-- A close notification as the session observes it: either the close
callback with its (optional) status code, or a transport error — which
the socket library surfaces as a subsequent close callback without a
normal close code, so it reaches `on_close` with no code. -/
inductive CloseNotice where
  | close (code : Option Int)
  | transportError

/-- The close code the `on_close` callback receives for a notice. -/
def noticeCode : CloseNotice → Option Int
  | .close c => c
  | .transportError => none

/-- The decisions produced by `n` consecutive abnormal closes starting
from a given `reconnect_attempts` value (no successful reconnect in
between, so no reset of the counter). -/
def consecutiveDecisions (exp : Bool) : Nat → Nat → List ReconnectDecision
  | _, 0 => []
  | a, n + 1 =>
      match handle_reconnect exp a with
      | .retryAfter d a' => .retryAfter d a' :: consecutiveDecisions exp a' n
      | .giveUp acts => [.giveUp acts]

/-- A change value accepted by `extract_change_percent`'s final test:
`isinstance(change, (int, float)) and change == change` — a finite
number (booleans count as 1 / 0); NaN and non-numbers are rejected. -/
def acceptFinite : JVal → Option PyNum
  | .num q => some (.fin q)
  | .bool b => some (.fin (if b then 1 else 0))
  | _ => none

/-- The value `update_prices` resolves for one instrument of a price
container: the gated sub-structure's `extract_price_value`, absent when
the sub-structure is missing, falsy, or carries no usable
representation. -/
def resolvedValue (pd : JVal) (grp key : String) : Option PyNum :=
  (instrSub pd grp key).bind extract_price_value

/-!
Concrete probe payloads used by the claim theorems below.
-/

/-- An update carrying a brent price of 80 with a 5 % change. -/
def updBrent80c5 : JVal :=
  .obj [("prices", .obj [("oil", .obj [("brent",
    .obj [("original_price", .num 80), ("change_24h_percent", .num 5)])])])]

/-- An update carrying only a brent price of 81 — no change field. -/
def updBrent81 : JVal :=
  .obj [("prices", .obj [("oil", .obj [("brent",
    .obj [("original_price", .num 81)])])])]

/-- An update setting only `brent.value = 80` (the spec's update₁). -/
def updBrentOnly80 : JVal :=
  .obj [("prices", .obj [("oil", .obj [("brent",
    .obj [("original_price", .num 80)])])])]

/-- An update setting only `wti.value = 70` (the spec's update₂). -/
def updWtiOnly70 : JVal :=
  .obj [("prices", .obj [("oil", .obj [("wti",
    .obj [("original_price", .num 70)])])])]

/-- A price record whose primary change key holds the finite number 0
while the legacy alias holds 5. -/
def changeZeroPrimary : JVal :=
  .obj [("change_24h_percent", .num 0), ("change_percent", .num 5)]

/-- The `welcome` frame of the end-to-end example: initial data with
`prices.oil.brent.original_price = 80.5`. -/
def welcomeFrame : Frame :=
  .parsed 120 (.obj
    [("type", .str "welcome"),
     ("data", .obj [("prices", .obj [("oil", .obj [("brent",
       .obj [("original_price", .num (161 / 2))])])])])])

/-- The data frame of the end-to-end example:
`message.prices.oil.wti.original_price.cents = 7010`. -/
def dataFrame : Frame :=
  .parsed 90 (.obj
    [("message", .obj [("prices", .obj [("oil", .obj [("wti",
      .obj [("original_price", .obj [("cents", .num 7010)])])])])])])

/-- The session state after feeding the welcome frame, then the data
frame, to `on_message` from the initial state. -/
def endToEndState : TesterState :=
  on_message false false "t2"
    (on_message false false "t1" initTester welcomeFrame) dataFrame

/-- A ping frame (carrying a `message` field, as the server's pings
do). -/
def pingFrame : Frame :=
  .parsed 55 (.obj [("type", .str "ping"), ("message", .num 1699999999)])

/-- A `by_state` block with a tie on the 7-day count (`NM` encountered
before `OK`, both at 20). -/
def byStateBlock : JVal :=
  .obj [("TX", .obj [("count_7d", .num 50)]),
        ("NM", .obj [("count_7d", .num 20)]),
        ("OK", .obj [("count_7d", .num 20)]),
        ("ND", .obj [("count_7d", .num 30)])]

/-- The well-permits sub-object wrapping `byStateBlock`. -/
def wellPermitsBlock : JVal := .obj [("by_state", byStateBlock)]

/-- The drilling-intelligence sub-object wrapping `wellPermitsBlock`. -/
def drillingBlock : JVal := .obj [("well_permits", wellPermitsBlock)]

/-- An update carrying the `by_state` block above. -/
def updByState : JVal := .obj [("drilling_intelligence", drillingBlock)]

/-!
Helper lemmas.  First the stable-descending-sort properties of
`insertDesc` / `sortDesc`, then overwrite-or-keep lemmas about the merge
helpers, shared by several claim theorems.
-/

theorem insertDesc_perm (x : String × ℚ) (l : List (String × ℚ)) :
    (insertDesc x l).Perm (x :: l) := by
  induction l with
  | nil => simp [insertDesc]
  | cons y ys ih =>
      rw [insertDesc]
      split
      · exact List.Perm.refl _
      · exact (ih.cons y).trans (List.Perm.swap x y ys)

theorem mem_insertDesc {z x : String × ℚ} {l : List (String × ℚ)} :
    z ∈ insertDesc x l ↔ z = x ∨ z ∈ l := by
  rw [(insertDesc_perm x l).mem_iff, List.mem_cons]

theorem insertDesc_sorted {x : String × ℚ} {l : List (String × ℚ)}
    (h : l.Pairwise (fun a b => b.2 ≤ a.2)) :
    (insertDesc x l).Pairwise (fun a b => b.2 ≤ a.2) := by
  induction l with
  | nil => simp [insertDesc]
  | cons y ys ih =>
      rw [insertDesc]
      rw [List.pairwise_cons] at h
      split
      · rename_i hlt
        refine List.pairwise_cons.mpr ⟨?_, List.pairwise_cons.mpr h⟩
        intro z hz
        rcases List.mem_cons.mp hz with rfl | hz
        · exact le_of_lt hlt
        · exact (h.1 z hz).trans (le_of_lt hlt)
      · rename_i hge
        push_neg at hge
        refine List.pairwise_cons.mpr ⟨?_, ih h.2⟩
        intro z hz
        rcases mem_insertDesc.mp hz with rfl | hz
        · exact hge
        · exact h.1 z hz

theorem filter_eq_nil_of_lt {c : ℚ} {y : String × ℚ} {ys : List (String × ℚ)}
    (h : (y :: ys).Pairwise (fun a b => b.2 ≤ a.2)) (hy : y.2 < c) :
    (y :: ys).filter (fun p => decide (p.2 = c)) = [] := by
  rw [List.filter_eq_nil_iff]
  intro z hz
  rcases List.mem_cons.mp hz with rfl | hz
  · simpa using ne_of_lt hy
  · have hle : z.2 ≤ y.2 := (List.pairwise_cons.mp h).1 z hz
    simpa using ne_of_lt (lt_of_le_of_lt hle hy)

theorem insertDesc_filter (x : String × ℚ) {l : List (String × ℚ)} (c : ℚ)
    (h : l.Pairwise (fun a b => b.2 ≤ a.2)) :
    (insertDesc x l).filter (fun p => decide (p.2 = c)) =
      if x.2 = c then l.filter (fun p => decide (p.2 = c)) ++ [x]
      else l.filter (fun p => decide (p.2 = c)) := by
  induction l with
  | nil => by_cases hx : x.2 = c <;> simp [insertDesc, hx]
  | cons y ys ih =>
      rw [insertDesc]
      split
      · rename_i hlt
        by_cases hx : x.2 = c
        · have hnil : (y :: ys).filter (fun p => decide (p.2 = c)) = [] :=
            filter_eq_nil_of_lt h (hx ▸ hlt)
          simp [hnil, hx]
        · simp [List.filter_cons, hx]
      · rename_i hge
        rw [List.pairwise_cons] at h
        have ihs := ih h.2
        by_cases hx : x.2 = c <;> by_cases hy : y.2 = c <;>
          simp [List.filter_cons, hx, hy, ihs]

theorem foldl_insertDesc_perm (l : List (String × ℚ)) :
    ∀ acc, (l.foldl (fun a x => insertDesc x a) acc).Perm (l ++ acc) := by
  induction l with
  | nil => intro acc; simp
  | cons x xs ih =>
      intro acc
      exact (ih (insertDesc x acc)).trans
        ((List.Perm.append_left xs (insertDesc_perm x acc)).trans List.perm_middle)

theorem foldl_insertDesc_sorted (l : List (String × ℚ)) :
    ∀ acc, acc.Pairwise (fun a b => b.2 ≤ a.2) →
      (l.foldl (fun a x => insertDesc x a) acc).Pairwise (fun a b => b.2 ≤ a.2) := by
  induction l with
  | nil => intro acc h; simpa using h
  | cons x xs ih => intro acc h; exact ih _ (insertDesc_sorted h)

theorem foldl_insertDesc_filter (c : ℚ) (l : List (String × ℚ)) :
    ∀ acc, acc.Pairwise (fun a b => b.2 ≤ a.2) →
      (l.foldl (fun a x => insertDesc x a) acc).filter (fun p => decide (p.2 = c)) =
        acc.filter (fun p => decide (p.2 = c)) ++ l.filter (fun p => decide (p.2 = c)) := by
  induction l with
  | nil => intro acc _; simp
  | cons x xs ih =>
      intro acc h
      rw [List.foldl_cons, ih _ (insertDesc_sorted h), insertDesc_filter x c h,
        List.filter_cons]
      by_cases hx : x.2 = c <;> simp [hx]

theorem sortDesc_perm (l : List (String × ℚ)) : (sortDesc l).Perm l := by
  simpa using foldl_insertDesc_perm l []

theorem sortDesc_sorted (l : List (String × ℚ)) :
    (sortDesc l).Pairwise (fun a b => b.2 ≤ a.2) :=
  foldl_insertDesc_sorted l [] (by simp)

theorem sortDesc_filter (l : List (String × ℚ)) (c : ℚ) :
    (sortDesc l).filter (fun p => decide (p.2 = c)) =
      l.filter (fun p => decide (p.2 = c)) := by
  simpa using foldl_insertDesc_filter c l [] (by simp)

theorem updQuote_idem (sub : Option JVal) (now : String) (old : PriceQuote) :
    updQuote sub now (updQuote sub now old) = updQuote sub now old := by
  cases sub with
  | none => rfl
  | some p =>
      cases h : extract_price_value p <;> simp [updQuote, h]

theorem updQuote_of_unresolved {sub : Option JVal} (now : String) (old : PriceQuote)
    (h : sub.bind extract_price_value = none) : updQuote sub now old = old := by
  cases sub with
  | none => rfl
  | some p => simp [updQuote, show extract_price_value p = none from h]

theorem updQuote_of_resolved {sub : Option JVal} {p : JVal} {v : PyNum}
    (now : String) (old : PriceQuote) (hs : sub = some p)
    (h : extract_price_value p = some v) :
    updQuote sub now old =
      ⟨some v, extract_change_percent p, some now⟩ := by
  subst hs; simp [updQuote, h]

theorem updMetric_idem (x : Option JVal) (old : Option JVal) :
    updMetric x (updMetric x old) = updMetric x old := by
  cases x <;> rfl

theorem updDrilling_idem (di : JVal) (d : Drilling) :
    updDrilling di (updDrilling di d) = updDrilling di d := by
  unfold updDrilling
  split <;> simp [updMetric_idem]

theorem updWellPermits_idem (di : JVal) (now : String) (w : WellPermits) :
    updWellPermits di now (updWellPermits di now w) = updWellPermits di now w := by
  unfold updWellPermits
  split
  · cases hwp : pyGet di "well_permits" with
    | none => simp
    | some wp =>
        by_cases htw : truthy wp = true
        · simp only [htw, if_true]
          cases hs : pyGet wp "summary" with
          | none => cases hbs : pyGet wp "by_state" <;> simp +contextual
          | some s =>
              by_cases hts : truthy s = true <;>
                cases hbs : pyGet wp "by_state" <;> simp +contextual [hts]
        · simp [htw]
  · rfl

theorem update_prices_brent (st : Store) (data : JVal) (now : String) :
    (update_prices st data now).prices.brent =
      updQuote (instrSub (priceContainer data) "oil" "brent") now st.prices.brent := rfl

theorem update_prices_wti (st : Store) (data : JVal) (now : String) :
    (update_prices st data now).prices.wti =
      updQuote (instrSub (priceContainer data) "oil" "wti") now st.prices.wti := rfl

theorem update_prices_natgas_us (st : Store) (data : JVal) (now : String) :
    (update_prices st data now).prices.natgas_us =
      updQuote (instrSub (priceContainer data) "natural_gas" "us") now st.prices.natgas_us := rfl

theorem update_prices_natgas_uk (st : Store) (data : JVal) (now : String) :
    (update_prices st data now).prices.natgas_uk =
      updQuote (instrSub (priceContainer data) "natural_gas" "uk") now st.prices.natgas_uk := rfl

theorem update_prices_top_states (st : Store) (data di wp bs : JVal) (now : String)
    (h1 : pyGet data "drilling_intelligence" = some di) (h2 : truthy di = true)
    (h3 : pyGet di "well_permits" = some wp) (h4 : truthy wp = true)
    (h5 : pyGet wp "by_state" = some bs) (h6 : truthy bs = true) :
    (update_prices st data now).well_permits.top_states = topStatesOf bs := by
  show (updWellPermits ((pyGet data "drilling_intelligence").getD (.obj []))
      now st.well_permits).top_states = topStatesOf bs
  rw [h1]
  unfold updWellPermits
  rw [Option.getD_some, if_pos h2, h3]
  simp only [h4, if_true, h5, h6]

theorem on_message_bytes (v p : Bool) (now : String) (st : TesterState) (f : Frame) :
    (on_message v p now st f).bytes_received = st.bytes_received + f.length := by
  cases f with
  | malformed len => cases v <;> simp [on_message, Frame.length]
  | parsed len msg =>
      simp only [on_message, Frame.length]
      split
      · split <;> rfl
      · split
        · split <;> rfl
        · split
          · rfl
          · split
            · rfl
            · split
              · split <;> rfl
              · rfl

theorem on_message_ping_count (v p : Bool) (now : String) (st : TesterState)
    {f : Frame} (h : f.isPing = true) :
    (on_message v p now st f).message_count = st.message_count := by
  cases f with
  | malformed len => simp [Frame.isPing] at h
  | parsed len msg =>
      simp only [Frame.isPing] at h
      simp only [on_message, h, if_true]
      split <;> rfl

/-- C9: merge idempotence — applying the same update payload twice at
the same observed receipt time produces the same store state as
applying it once: per-field stickiness and wholesale replacement both
write values that depend only on the payload and the receipt time. -/
theorem merge_idempotent (st : Store) (data : JVal) (now : String) :
    update_prices (update_prices st data now) data now = update_prices st data now := by
  unfold update_prices
  simp [updQuote_idem, updDrilling_idem, updWellPermits_idem]

/-- C2: reconnection policy — with `maxAttempts = 5` and
`baseDelay = 1`, the 1st through 5th consecutive retry decisions carry
exactly the delays 1, 2, 4, 8, 16 with the attempt counter incremented
exactly once per retry decision, and the 6th consecutive abnormal close
(`reconnect_attempts >= MAX_RECONNECT_ATTEMPTS`) gives up, which
performs a final flush (stop the display, optionally export the log)
and then terminates the process with the nonzero exit status 1. -/
theorem reconnect_backoff_schedule (exp : Bool) :
    consecutiveDecisions exp 0 6 =
      [.retryAfter 1 1, .retryAfter 2 2, .retryAfter 4 3, .retryAfter 8 4,
       .retryAfter 16 5, .giveUp (giveUpActions exp)] ∧
    (∀ a d a', handle_reconnect exp a = .retryAfter d a' → a' = a + 1) ∧
    (∀ a, MAX_RECONNECT_ATTEMPTS ≤ a →
      handle_reconnect exp a = .giveUp (giveUpActions exp)) ∧
    (giveUpActions exp).getLast? = some (.exitProcess 1) ∧
    (giveUpActions exp).head? = some .stopDisplay ∧
    (∀ c, ShutdownAction.exitProcess c ∈ giveUpActions exp → c ≠ 0) := by
  refine ⟨rfl, ?_, ?_, ?_, ?_, ?_⟩
  · intro a d a' h
    unfold handle_reconnect at h
    split at h
    · exact absurd h (by simp)
    · injection h with h1 h2
      omega
  · intro a h
    unfold handle_reconnect
    rw [if_pos h]
  · cases exp <;> rfl
  · cases exp <;> rfl
  · intro c h
    cases exp <;> simp [giveUpActions] at h <;> simp [h]

/-- C3: close-code policy — a close notification ends the session
without a reconnect attempt exactly when it is a normal close with code
1000; any other code, an absent code, or a transport error (surfaced by
the socket library as a close callback without a normal code) always
hands control to `handle_reconnect`, which retries while the budget
lasts and gives up once `MAX_RECONNECT_ATTEMPTS` is exhausted. -/
theorem close_code_policy (exp : Bool) (n : CloseNotice) (attempts : Nat) :
    (on_close_decision exp (noticeCode n) attempts = .sessionEnd ↔
      n = .close (some 1000)) ∧
    (noticeCode n ≠ some 1000 → attempts < MAX_RECONNECT_ATTEMPTS →
      on_close_decision exp (noticeCode n) attempts =
        .reconnect (.retryAfter (RECONNECT_BASE_DELAY_SEC * 2 ^ attempts) (attempts + 1))) ∧
    (noticeCode n ≠ some 1000 → MAX_RECONNECT_ATTEMPTS ≤ attempts →
      on_close_decision exp (noticeCode n) attempts =
        .reconnect (.giveUp (giveUpActions exp))) := by
  refine ⟨?_, ?_, ?_⟩
  · constructor
    · intro h
      by_cases hc : noticeCode n = some 1000
      · cases n with
        | close c => simp only [noticeCode] at hc; rw [hc]
        | transportError => simp [noticeCode] at hc
      · rw [on_close_decision, if_neg hc] at h
        exact absurd h (by simp)
    · intro h
      subst h
      rfl
  · intro hc hlt
    rw [on_close_decision, if_neg hc, handle_reconnect]
    rw [if_neg (by omega)]
    simp
  · intro hc hge
    rw [on_close_decision, if_neg hc, handle_reconnect, if_pos hge]

/-- Witness for C2 at concrete inputs: the full decision trace from a
fresh counter, and one concrete increment (the 4th retry follows the
3rd with counter 4 = 3 + 1). -/
theorem reconnect_backoff_schedule_witness :
    consecutiveDecisions false 0 6 =
      [.retryAfter 1 1, .retryAfter 2 2, .retryAfter 4 3, .retryAfter 8 4,
       .retryAfter 16 5, .giveUp (giveUpActions false)] ∧ (4 = 3 + 1) :=
  ⟨(reconnect_backoff_schedule false).1,
   (reconnect_backoff_schedule false).2.1 3 8 4 rfl⟩

/-- Witness for C3 at concrete inputs: code 1000 ends the session; code
1006 at a fresh counter retries after 1 s; a transport error at an
exhausted counter gives up. -/
theorem close_code_policy_witness :
    (on_close_decision false (noticeCode (.close (some 1000))) 0 = .sessionEnd) ∧
    (on_close_decision false (noticeCode (.close (some 1006))) 0 =
      .reconnect (.retryAfter (RECONNECT_BASE_DELAY_SEC * 2 ^ 0) (0 + 1))) ∧
    (on_close_decision false (noticeCode .transportError) 5 =
      .reconnect (.giveUp (giveUpActions false))) :=
  ⟨(close_code_policy false (.close (some 1000)) 0).1.mpr rfl,
   (close_code_policy false (.close (some 1006)) 0).2.1 (by decide) (by decide),
   (close_code_policy false .transportError 5).2.2 (by decide) (by decide)⟩

/-- C7: malformed-frame handling — a frame that is not valid JSON never
terminates the session (the connection status, message count, store and
ping count are all untouched), is logged as a parse error, and only the
byte counter advances. -/
theorem malformed_frame_handling (v p : Bool) (now : String) (st : TesterState) (len : Nat) :
    (on_message v p now st (.malformed len)).connection_status = st.connection_status ∧
    (on_message v p now st (.malformed len)).message_count = st.message_count ∧
    (on_message v p now st (.malformed len)).store = st.store ∧
    (on_message v p now st (.malformed len)).ping_count = st.ping_count ∧
    (on_message v p now st (.malformed len)).bytes_received = st.bytes_received + len ∧
    (on_message v p now st (.malformed len)).logs =
      st.logs ++ (.parseError :: if v then [.rawPreview] else []) := by
  cases v <;> simp [on_message]

/-- C10 (implicit): `bytes_received` is incremented by the byte length
of every inbound frame — including ping frames and malformed frames,
which never reach the message counter — so the byte counter can
strictly increase while `message_count` stays unchanged. -/
theorem bytes_counted_before_parsing (v p : Bool) (now : String)
    (st : TesterState) (f : Frame) :
    (on_message v p now st f).bytes_received = st.bytes_received + f.length ∧
    (f.isPing = true → (on_message v p now st f).message_count = st.message_count) ∧
    (∀ len, f = .malformed len →
      (on_message v p now st f).message_count = st.message_count) ∧
    (f.isPing = true → 0 < f.length →
      st.bytes_received < (on_message v p now st f).bytes_received ∧
      (on_message v p now st f).message_count = st.message_count) := by
  refine ⟨on_message_bytes v p now st f, ?_, ?_, ?_⟩
  · exact fun h => on_message_ping_count v p now st h
  · rintro len rfl
    cases v <;> simp [on_message]
  · intro h hlen
    refine ⟨?_, on_message_ping_count v p now st h⟩
    rw [on_message_bytes]
    omega

/-- Witness for C10 at a concrete ping frame: bytes grow by the frame
length while the message count stays 0. -/
theorem bytes_counted_before_parsing_witness :
    (on_message false false "t" initTester pingFrame).bytes_received =
      initTester.bytes_received + pingFrame.length ∧
    (on_message false false "t" initTester pingFrame).message_count =
      initTester.message_count ∧
    initTester.bytes_received < (on_message false false "t" initTester pingFrame).bytes_received :=
  ⟨(bytes_counted_before_parsing false false "t" initTester pingFrame).1,
   (bytes_counted_before_parsing false false "t" initTester pingFrame).2.1 rfl,
   ((bytes_counted_before_parsing false false "t" initTester pingFrame).2.2.2
      rfl (by decide)).1⟩

/-- C5: price-value extraction — for a truthy price sub-structure the
numeric value is resolved with the precedence (a) directly numeric
`original_price`, (b) `original_price.cents / 100`, (c) the same two
representations of `normalized_price`; a cents-denominated price
`{cents: 7234}` resolves to 72.34; and when no representation yields a
value, the instrument's stored quote is left untouched (shown for all
four instruments). -/
theorem price_extraction_precedence (price : JVal) (ht : truthy price = true) :
    (∀ q, pyGet price "original_price" = some (.num q) →
      extract_price_value price = some (.fin q)) ∧
    (∀ fields q, pyGet price "original_price" = some (.obj fields) →
      pyGet (.obj fields) "cents" = some (.num q) →
      extract_price_value price = some (.fin (q / 100))) ∧
    (pyGet price "original_price" = none →
      extract_price_value price = normFallback price) ∧
    (∀ q, pyGet price "original_price" = none →
      pyGet price "normalized_price" = some (.num q) →
      extract_price_value price = some (.fin q)) ∧
    (∀ fields q, pyGet price "original_price" = none →
      pyGet price "normalized_price" = some (.obj fields) →
      pyGet (.obj fields) "cents" = some (.num q) →
      extract_price_value price = some (.fin (q / 100))) ∧
    ((extract_price_value (.obj [("original_price", .obj [("cents", .num 7234)])]) =
        some (.fin (7234 / 100))) ∧ ((7234 / 100 : ℚ) = 72.34)) ∧
    (∀ st data now, resolvedValue (priceContainer data) "oil" "brent" = none →
      (update_prices st data now).prices.brent = st.prices.brent) ∧
    (∀ st data now, resolvedValue (priceContainer data) "oil" "wti" = none →
      (update_prices st data now).prices.wti = st.prices.wti) ∧
    (∀ st data now, resolvedValue (priceContainer data) "natural_gas" "us" = none →
      (update_prices st data now).prices.natgas_us = st.prices.natgas_us) ∧
    (∀ st data now, resolvedValue (priceContainer data) "natural_gas" "uk" = none →
      (update_prices st data now).prices.natgas_uk = st.prices.natgas_uk) := by
  refine ⟨?_, ?_, ?_, ?_, ?_, ⟨rfl, by norm_num⟩, ?_, ?_, ?_, ?_⟩
  · intro q h
    simp [extract_price_value, ht, h]
  · intro fields q h1 h2
    simp [extract_price_value, ht, h1, h2, centsDiv]
  · intro h
    simp [extract_price_value, ht, h]
  · intro q h1 h2
    simp [extract_price_value, normFallback, ht, h1, h2]
  · intro fields q h1 h2 h3
    simp [extract_price_value, normFallback, ht, h1, h2, h3, centsDiv]
  · intro st data now h
    rw [update_prices_brent]
    exact updQuote_of_unresolved now _ h
  · intro st data now h
    rw [update_prices_wti]
    exact updQuote_of_unresolved now _ h
  · intro st data now h
    rw [update_prices_natgas_us]
    exact updQuote_of_unresolved now _ h
  · intro st data now h
    rw [update_prices_natgas_uk]
    exact updQuote_of_unresolved now _ h

/-- Witness for C5 at concrete inputs: a directly numeric original
price is taken as-is, and an update with no resolvable value leaves
brent's quote untouched. -/
theorem price_extraction_precedence_witness :
    extract_price_value (.obj [("original_price", .num 42)]) = some (.fin 42) ∧
    (update_prices initStore (.obj [("note", .str "empty")]) "t").prices.brent =
      initStore.prices.brent :=
  ⟨(price_extraction_precedence (.obj [("original_price", .num 42)]) rfl).1 42 rfl,
   (price_extraction_precedence (.obj [("original_price", .num 42)]) rfl).2.2.2.2.2.2.1
      initStore (.obj [("note", .str "empty")]) "t" rfl⟩

/-- C8: the top-states list — on every update carrying a truthy
`by_state` block, `top_states` is recomputed wholesale from that block
alone (independent of the prior list), contains all entries
(permutation), is sorted descending by the 7-day count, and is stable:
for every count value, the entries holding it appear exactly in
encounter order. -/
theorem top_states_sorted_stable (st : Store) (data di wp bs : JVal) (now : String)
    (h1 : pyGet data "drilling_intelligence" = some di) (h2 : truthy di = true)
    (h3 : pyGet di "well_permits" = some wp) (h4 : truthy wp = true)
    (h5 : pyGet wp "by_state" = some bs) (h6 : truthy bs = true) :
    (update_prices st data now).well_permits.top_states =
      sortDesc ((pyItems bs).map (fun p => (p.1, count7d p.2))) ∧
    ((update_prices st data now).well_permits.top_states).Perm
      ((pyItems bs).map (fun p => (p.1, count7d p.2))) ∧
    ((update_prices st data now).well_permits.top_states).Pairwise
      (fun a b => b.2 ≤ a.2) ∧
    (∀ c : ℚ,
      ((update_prices st data now).well_permits.top_states).filter
          (fun p => decide (p.2 = c)) =
        ((pyItems bs).map (fun p => (p.1, count7d p.2))).filter
          (fun p => decide (p.2 = c))) := by
  have h := update_prices_top_states st data di wp bs now h1 h2 h3 h4 h5 h6
  rw [h]
  exact ⟨rfl, sortDesc_perm _, sortDesc_sorted _, fun c => sortDesc_filter _ c⟩

/-- Witness for C8 at a concrete `by_state` block with a tie: the
recomputed list is `TX 50, ND 30, NM 20, OK 20` — descending, with the
tied entries `NM`, `OK` in encounter order. -/
theorem top_states_sorted_stable_witness :
    (update_prices initStore updByState "t").well_permits.top_states =
      sortDesc ((pyItems byStateBlock).map (fun p => (p.1, count7d p.2))) ∧
    (update_prices initStore updByState "t").well_permits.top_states =
      [("TX", 50), ("ND", 30), ("NM", 20), ("OK", 20)] :=
  ⟨(top_states_sorted_stable initStore updByState drillingBlock wellPermitsBlock
      byStateBlock "t" rfl rfl rfl rfl rfl rfl).1,
   by decide⟩

/-- C1 counterexample: the claim's changePercent half fails.  Update₁
stores brent value 80 with change 5 %; update₂ carries a brent record
with a resolvable value (81) but no change field at all (neither the
primary key nor the legacy alias is present), yet after it the stored
`change` is cleared to absent instead of being retained as 5 — because
`update_prices` rebuilds the whole quote dict whenever a value is
resolvable. -/
theorem price_change_stickiness_counterexample :
    pyGet (.obj [("original_price", .num 81)]) "change_24h_percent" = none ∧
    pyGet (.obj [("original_price", .num 81)]) "change_percent" = none ∧
    (update_prices initStore updBrent80c5 "t1").prices.brent.change = some (.fin 5) ∧
    (update_prices (update_prices initStore updBrent80c5 "t1") updBrent81 "t2").prices.brent.change = none ∧
    ¬((update_prices (update_prices initStore updBrent80c5 "t1") updBrent81 "t2").prices.brent.change = some (.fin 5)) :=
  ⟨rfl, rfl, rfl, rfl, by decide⟩

/-- C1 amended: value stickiness holds — when the latest update
supplies no resolvable value for an instrument, that instrument's
entire quote (value, changePercent and update stamp) is retained
unchanged, and in particular the spec's example (update₁ sets
`brent.value = 80`, update₂ sets only `wti.value = 70`, brent stays 80)
holds; but when a resolvable value is supplied, the whole quote is
rebuilt, so the stored changePercent is replaced by the update's
extracted change — possibly clearing it — rather than being sticky on
its own. -/
theorem price_value_stickiness_amended (st : Store) (data : JVal) (now : String) :
    (resolvedValue (priceContainer data) "oil" "brent" = none →
      (update_prices st data now).prices.brent = st.prices.brent) ∧
    (resolvedValue (priceContainer data) "oil" "wti" = none →
      (update_prices st data now).prices.wti = st.prices.wti) ∧
    (resolvedValue (priceContainer data) "natural_gas" "us" = none →
      (update_prices st data now).prices.natgas_us = st.prices.natgas_us) ∧
    (resolvedValue (priceContainer data) "natural_gas" "uk" = none →
      (update_prices st data now).prices.natgas_uk = st.prices.natgas_uk) ∧
    (∀ p v, instrSub (priceContainer data) "oil" "brent" = some p →
      extract_price_value p = some v →
      (update_prices st data now).prices.brent =
        ⟨some v, extract_change_percent p, some now⟩) ∧
    ((update_prices (update_prices initStore updBrentOnly80 "t1") updWtiOnly70 "t2").prices.brent.value = some (.fin 80) ∧
     (update_prices (update_prices initStore updBrentOnly80 "t1") updWtiOnly70 "t2").prices.wti.value = some (.fin 70)) := by
  refine ⟨?_, ?_, ?_, ?_, ?_, rfl, rfl⟩
  · intro h
    rw [update_prices_brent]
    exact updQuote_of_unresolved now _ h
  · intro h
    rw [update_prices_wti]
    exact updQuote_of_unresolved now _ h
  · intro h
    rw [update_prices_natgas_us]
    exact updQuote_of_unresolved now _ h
  · intro h
    rw [update_prices_natgas_uk]
    exact updQuote_of_unresolved now _ h
  · intro p v hs hv
    rw [update_prices_brent]
    exact updQuote_of_resolved now _ hs hv

/-- Witness for C1 amended at the spec's own example: update₂ (wti
only) leaves brent's whole quote untouched, and update₁ rebuilt brent's
quote to value 80 with no change. -/
theorem price_value_stickiness_amended_witness :
    (update_prices (update_prices initStore updBrentOnly80 "t1") updWtiOnly70 "t2").prices.brent =
      (update_prices initStore updBrentOnly80 "t1").prices.brent ∧
    (update_prices initStore updBrentOnly80 "t1").prices.brent =
      ⟨some (.fin 80), none, some "t1"⟩ :=
  ⟨(price_value_stickiness_amended (update_prices initStore updBrentOnly80 "t1")
      updWtiOnly70 "t2").1 rfl,
   (price_value_stickiness_amended initStore updBrentOnly80 "t1").2.2.2.2.1
      (.obj [("original_price", .num 80)]) (.fin 80) rfl rfl⟩

/-- C4 counterexample: feeding the welcome frame (brent 80.5) and then
the data frame (wti cents 7010) yields the claimed snapshot, but
`message_count` is 2, not 1 — `on_message` increments the counter
before the welcome branch, so the welcome frame does count. -/
theorem end_to_end_message_count_counterexample :
    endToEndState.store.prices.brent.value = some (.fin (161 / 2)) ∧
    ((161 / 2 : ℚ) = 80.5) ∧
    endToEndState.store.prices.wti.value = some (.fin (7010 / 100)) ∧
    ((7010 / 100 : ℚ) = 70.10) ∧
    endToEndState.message_count = 2 ∧
    ¬(endToEndState.message_count = 1) :=
  ⟨rfl, by norm_num, rfl, by norm_num, rfl, by decide⟩

/-- C4 amended: the end-to-end run yields the snapshot
`brent.value = 80.5`, `wti.value = 70.10` and `message_count = 2`: the
welcome frame and the data frame each count toward `message_count`
(only ping frames — and malformed frames — do not, as a subsequent ping
leaves the counter at 2). -/
theorem end_to_end_snapshot_amended :
    endToEndState.store.prices.brent.value = some (.fin (161 / 2)) ∧
    ((161 / 2 : ℚ) = 80.5) ∧
    endToEndState.store.prices.wti.value = some (.fin (7010 / 100)) ∧
    ((7010 / 100 : ℚ) = 70.10) ∧
    endToEndState.message_count = 2 ∧
    (on_message false false "t3" endToEndState pingFrame).message_count = 2 :=
  ⟨rfl, by norm_num, rfl, by norm_num, rfl, rfl⟩

/-- C6 counterexample: a price record whose primary key
`change_24h_percent` is present with the finite number 0 — which the
claim says must be taken — while the legacy alias holds 5: the
extraction returns 5, because Python's `or` treats the falsy primary
value 0 as absent. -/
theorem change_percent_primary_counterexample :
    pyGet changeZeroPrimary "change_24h_percent" = some (.num 0) ∧
    extract_change_percent changeZeroPrimary = some (.fin 5) ∧
    some (PyNum.fin 5) ≠ some (PyNum.fin 0) :=
  ⟨rfl, rfl, by decide⟩

/-- C6 amended: the change percentage is taken from the primary key
when it is present with a truthy value, else from the legacy alias
(a falsy primary — such as a 0 % change — falls through); the selected
value is accepted only if it is a finite number, with NaN always
rejected (yielding absent); and the stored changePercent is left
unchanged exactly when the update supplies no resolvable value for the
instrument — when a value is resolvable, the stored changePercent is
replaced by the newly extracted change (possibly absent). -/
theorem change_percent_extraction_amended (price v : JVal)
    (st : Store) (data : JVal) (now : String) :
    (truthy price = true → pyGet price "change_24h_percent" = some v →
      truthy v = true → extract_change_percent price = acceptFinite v) ∧
    (truthy price = true → pyGet price "change_24h_percent" = none →
      extract_change_percent price = (pyGet price "change_percent").bind acceptFinite) ∧
    (truthy price = true → pyGet price "change_24h_percent" = some v →
      truthy v = false →
      extract_change_percent price = (pyGet price "change_percent").bind acceptFinite) ∧
    (acceptFinite .nan = none) ∧
    (truthy price = true → pyGet price "change_24h_percent" = some .nan →
      extract_change_percent price = none) ∧
    (resolvedValue (priceContainer data) "oil" "brent" = none →
      (update_prices st data now).prices.brent.change = st.prices.brent.change) ∧
    (∀ p w, instrSub (priceContainer data) "oil" "brent" = some p →
      extract_price_value p = some w →
      (update_prices st data now).prices.brent.change = extract_change_percent p) := by
  refine ⟨?_, ?_, ?_, rfl, ?_, ?_, ?_⟩
  · intro ht hp htv
    cases v <;> simp [extract_change_percent, ht, hp, htv, acceptFinite]
  · intro ht hp
    cases hq : pyGet price "change_percent" with
    | none => simp [extract_change_percent, ht, hp, hq]
    | some w => cases w <;> simp [extract_change_percent, ht, hp, hq, acceptFinite]
  · intro ht hp htv
    cases hq : pyGet price "change_percent" with
    | none => simp [extract_change_percent, ht, hp, htv, hq]
    | some w => cases w <;> simp [extract_change_percent, ht, hp, htv, hq, acceptFinite]
  · intro ht hp
    simp [extract_change_percent, truthy, ht, hp]
  · intro h
    rw [update_prices_brent, updQuote_of_unresolved now _ h]
  · intro p w hs hw
    rw [update_prices_brent, updQuote_of_resolved now _ hs hw]

/-- Witness for C6 amended at concrete inputs: a truthy primary value 3
is taken; a NaN primary with legacy alias 7 is rejected outright; and
an update that resolves brent's value to 81 replaces brent's stored
change with the (absent) newly extracted one. -/
theorem change_percent_extraction_amended_witness :
    extract_change_percent (.obj [("change_24h_percent", .num 3)]) =
      acceptFinite (.num 3) ∧
    extract_change_percent
      (.obj [("change_24h_percent", .nan), ("change_percent", .num 7)]) = none ∧
    (update_prices (update_prices initStore updBrent80c5 "t1") updBrent81 "t2").prices.brent.change =
      extract_change_percent (.obj [("original_price", .num 81)]) :=
  ⟨(change_percent_extraction_amended (.obj [("change_24h_percent", .num 3)])
      (.num 3) initStore (.obj []) "t").1 rfl rfl rfl,
   (change_percent_extraction_amended
      (.obj [("change_24h_percent", .nan), ("change_percent", .num 7)])
      .nan initStore (.obj []) "t").2.2.2.2.1 rfl rfl,
   (change_percent_extraction_amended (.obj []) .null
      (update_prices initStore updBrent80c5 "t1") updBrent81 "t2").2.2.2.2.2.2
      (.obj [("original_price", .num 81)]) (.fin 81) rfl rfl⟩

end Tester
